import Mathlib

/-!
Shallow embedding of `src/main.py`, a FastAPI task-tracking CRUD service.

Modelling conventions:
* Calendar dates (`due_date`, `date.today()`) are integers counting days;
  timestamps (`datetime.now(timezone.utc)`) are integers.  Both are passed to
  each request as explicit parameters (`today`, `now`), reflecting that the
  code reads the clock during request processing.
* The pydantic models `TaskIn`, `TaskUpdate`, `Task` become structures whose
  field constraints become Boolean validity predicates.  `Task` inherits
  `TaskIn` in the source, so constructing a `Task` re-runs the `TaskIn`
  constraints (title length 4..100, description length at most 100, due date
  not in the past); this is captured by `Task.fromRaw`.
* `TaskUpdate` fields use nested options: the outer `Option` is pydantic
  "was the field explicitly set" (tracked by `model_dump(exclude_unset=True)`),
  the inner `Option` is an explicit JSON null.
* The FastAPI pipeline per request is: resolve the route dependencies
  (`require_key`), then validate the payload, then run the handler body.
  The header `x-api-key` is declared with `Header(...)`, i.e. required: a
  request without the header is rejected by FastAPI with a 422 validation
  error before `require_key` ever runs; `require_key` raises 401 only when
  the header is present and differs from the secret.  A pydantic
  `ValidationError` raised inside a handler body (the `Task(**data)` call in
  `update_task`) is an unhandled exception, surfaced by the framework as an
  internal server error (500), modelled by `Resp.internalError`.
* The in-memory dict `DB` is an association list with Python-dict semantics
  (insert keeps the original position of an existing key, appends a new key);
  `_id_counter = itertools.count(1)` is a natural-number counter starting
  at 1.
-/

namespace TasksApi

inductive Priority where
  | low
  | medium
  | high
deriving Repr, DecidableEq

inductive Status where
  | todo
  | doing
  | done
deriving Repr, DecidableEq

/-- Incoming payload for create/replace (`TaskIn` in `src/main.py`).
The structure holds the parsed JSON fields; the length/date constraints
declared via `Field(...)` and the `due_not_past` validator are the separate
predicate `TaskIn.valid`. -/
structure TaskIn where
  title : String
  description : Option String
  priority : Priority
  status : Status
  due_date : Option Int
deriving Repr, DecidableEq

/-- `title: str = Field(..., min_length=4, max_length=100)`. -/
def titleOkFull (t : String) : Bool :=
  decide (4 ≤ t.length) && decide (t.length ≤ 100)

/-- `description: Optional[str] = Field(None, max_length=n)`. -/
def descLe (n : Nat) : Option String → Bool
  | none => true
  | some d => decide (d.length ≤ n)

/-- The `due_not_past` validator: `if v and v < date.today(): raise`. -/
def dueOk (today : Int) : Option Int → Bool
  | none => true
  | some v => decide (today ≤ v)

/-- All constraints pydantic enforces when parsing a `TaskIn` payload. -/
def TaskIn.valid (today : Int) (p : TaskIn) : Bool :=
  titleOkFull p.title && descLe 100 p.description && dueOk today p.due_date

/-- Partial-update payload (`TaskUpdate` in `src/main.py`).  Outer `Option`:
field explicitly present in the request; inner `Option`: explicit null. -/
structure TaskUpdate where
  title : Option (Option String)
  description : Option (Option String)
  priority : Option (Option Priority)
  status : Option (Option Status)
  due_date : Option (Option Int)
deriving Repr, DecidableEq

/-- `title: Optional[str] = Field(None, min_length=1, max_length=100)`. -/
def titleOkUpd : Option (Option String) → Bool
  | some (some t) => decide (1 ≤ t.length) && decide (t.length ≤ 100)
  | _ => true

/-- `description: Optional[str] = Field(None, max_length=500)`. -/
def descUpdOk : Option (Option String) → Bool
  | some (some d) => decide (d.length ≤ 500)
  | _ => true

/-- `due_not_past` on the update path (skips both unset and null). -/
def dueUpdOk (today : Int) : Option (Option Int) → Bool
  | some (some v) => decide (today ≤ v)
  | _ => true

/-- All constraints pydantic enforces when parsing a `TaskUpdate` payload. -/
def TaskUpdate.valid (today : Int) (u : TaskUpdate) : Bool :=
  titleOkUpd u.title && descUpdOk u.description && dueUpdOk today u.due_date

/-- A stored task record (`Task` in `src/main.py`): `TaskIn` fields plus
server-assigned `id`, `created_at`, `updated_at`. -/
structure Task where
  id : Nat
  title : String
  description : Option String
  priority : Priority
  status : Status
  due_date : Option Int
  created_at : Int
  updated_at : Int
deriving Repr, DecidableEq

/-- The dict built by `update_task`: `existing.model_dump()` overwritten by
the supplied fields.  Because explicitly-null fields can overwrite required
ones, `title`, `priority` and `status` are optional here. -/
structure RawTask where
  id : Nat
  title : Option String
  description : Option String
  priority : Option Priority
  status : Option Status
  due_date : Option Int
  created_at : Int
  updated_at : Int
deriving Repr, DecidableEq

/-- `Task(**data)`: pydantic re-validates every field against `Task`'s
schema, which inherits `TaskIn`'s constraints and `due_not_past` validator.
Returns `none` when validation raises. -/
def Task.fromRaw (today : Int) (r : RawTask) : Option Task :=
  match r.title, r.priority, r.status with
  | some t, some pr, some st =>
      if titleOkFull t && descLe 100 r.description && dueOk today r.due_date then
        some { id := r.id, title := t, description := r.description,
               priority := pr, status := st, due_date := r.due_date,
               created_at := r.created_at, updated_at := r.updated_at }
      else none
  | _, _, _ => none

/-- `data = existing.model_dump(); data.update(payload.model_dump(exclude_unset=True));
data["updated_at"] = now` in `update_task`. -/
def mergeUpdate (e : Task) (u : TaskUpdate) (now : Int) : RawTask :=
  { id := e.id
    title := match u.title with | none => some e.title | some v => v
    description := match u.description with | none => e.description | some v => v
    priority := match u.priority with | none => some e.priority | some v => v
    status := match u.status with | none => some e.status | some v => v
    due_date := match u.due_date with | none => e.due_date | some v => v
    created_at := e.created_at
    updated_at := now }

/-- The stored task still satisfies the full-input constraints relative to
the given day (its due date, fixed when it was stored, may since have become
past). -/
def Task.validAt (today : Int) (t : Task) : Bool :=
  titleOkFull t.title && descLe 100 t.description && dueOk today t.due_date

/-- The in-memory store `DB: dict[int, Task]` as an association list. -/
abbrev DB := List (Nat × Task)

/-- `DB.get(k)` / `k in DB`. -/
def dbGet (db : DB) (k : Nat) : Option Task :=
  match db with
  | [] => none
  | (k', v) :: rest => if k' = k then some v else dbGet rest k

/-- `DB[k] = v`: Python dicts keep the position of an existing key and
append a new one. -/
def dbInsert (db : DB) (k : Nat) (v : Task) : DB :=
  match db with
  | [] => [(k, v)]
  | (k', v') :: rest => if k' = k then (k, v) :: rest else (k', v') :: dbInsert rest k v

/-- `del DB[k]`. -/
def dbErase (db : DB) (k : Nat) : DB :=
  db.filter (fun p => decide (p.1 ≠ k))

/-- Process state: the store plus `_id_counter` (next value to be yielded
by `itertools.count(1)`). -/
structure St where
  counter : Nat
  db : DB
deriving Repr, DecidableEq

/-- State at process start: empty store, counter at 1. -/
def initSt : St := { counter := 1, db := [] }

/-- HTTP outcome of one request. -/
inductive Resp where
  /-- 200 with a task body. -/
  | ok (t : Task)
  /-- 201 with the created task. -/
  | created (t : Task)
  /-- 200 with a list body (GET /tasks). -/
  | okList (ts : List Task)
  /-- 204 empty body. -/
  | noContent
  /-- 401 raised by `require_key`. -/
  | unauthorized
  /-- 404 raised by a handler on a missing id. -/
  | notFound
  /-- 422: request validation failed (payload constraints, or a required
  header such as `x-api-key` missing). -/
  | validationError
  /-- 500: an exception escaped the handler body (pydantic
  `ValidationError` from `Task(**data)` in `update_task`). -/
  | internalError
deriving Repr, DecidableEq

/-- The `x-api-key` gate: header absent fails request validation (the header
is declared required), present-but-wrong raises 401 from `require_key`,
correct continues with the guarded computation. -/
def withAuth (secret : String) (key : Option String) (s : St) (k : St × Resp) :
    St × Resp :=
  match key with
  | none => (s, Resp.validationError)
  | some v => if v = secret then k else (s, Resp.unauthorized)

/-- The record built by `Task(id=tid, created_at=now, updated_at=now,
**payload.model_dump())` in `create_task`. -/
def freshTask (p : TaskIn) (now : Int) (tid : Nat) : Task :=
  { id := tid, title := p.title, description := p.description,
    priority := p.priority, status := p.status, due_date := p.due_date,
    created_at := now, updated_at := now }

/-- The record built by `Task(id=task_id, created_at=DB[task_id].created_at,
updated_at=now, **payload.model_dump())` in `replace_task`. -/
def replacedTask (p : TaskIn) (created now : Int) (tid : Nat) : Task :=
  { id := tid, title := p.title, description := p.description,
    priority := p.priority, status := p.status, due_date := p.due_date,
    created_at := created, updated_at := now }

/-- `POST /tasks/` (`create_task`). -/
def create_task (secret : String) (key : Option String) (today now : Int)
    (p : TaskIn) (s : St) : St × Resp :=
  withAuth secret key s <|
    if TaskIn.valid today p then
      ({ counter := s.counter + 1,
         db := dbInsert s.db s.counter (freshTask p now s.counter) },
       Resp.created (freshTask p now s.counter))
    else (s, Resp.validationError)

/-- `GET /tasks/{task_id}` (`get_task`). -/
def get_task (secret : String) (key : Option String) (tid : Nat) (s : St) :
    St × Resp :=
  withAuth secret key s <|
    match dbGet s.db tid with
    | none => (s, Resp.notFound)
    | some t => (s, Resp.ok t)

/-- `PUT /tasks/{task_id}` (`replace_task`). -/
def replace_task (secret : String) (key : Option String) (today now : Int)
    (tid : Nat) (p : TaskIn) (s : St) : St × Resp :=
  withAuth secret key s <|
    if TaskIn.valid today p then
      match dbGet s.db tid with
      | none => (s, Resp.notFound)
      | some old =>
          ({ counter := s.counter,
             db := dbInsert s.db tid (replacedTask p old.created_at now tid) },
           Resp.ok (replacedTask p old.created_at now tid))
    else (s, Resp.validationError)

/-- `PATCH /tasks/{task_id}` (`update_task`).  The merged dict is
re-validated by `Task(**data)`; a failure there is an exception inside the
handler, after the store lookup but before the store write. -/
def update_task (secret : String) (key : Option String) (today now : Int)
    (tid : Nat) (u : TaskUpdate) (s : St) : St × Resp :=
  withAuth secret key s <|
    if TaskUpdate.valid today u then
      match dbGet s.db tid with
      | none => (s, Resp.notFound)
      | some e =>
          match Task.fromRaw today (mergeUpdate e u now) with
          | none => (s, Resp.internalError)
          | some t =>
              ({ counter := s.counter, db := dbInsert s.db tid t }, Resp.ok t)
    else (s, Resp.validationError)

/-- `DELETE /tasks/{task_id}` (`delete_task`). -/
def delete_task (secret : String) (key : Option String) (tid : Nat) (s : St) :
    St × Resp :=
  withAuth secret key s <|
    match dbGet s.db tid with
    | none => (s, Resp.notFound)
    | some _ => ({ counter := s.counter, db := dbErase s.db tid }, Resp.noContent)

/-- `GET /tasks` (`list_tasks_simple`). -/
def list_tasks_simple (secret : String) (key : Option String) (s : St) :
    St × Resp :=
  withAuth secret key s (s, Resp.okList (s.db.map Prod.snd))

/-- One request to one of the six task endpoints.  `key` is the value of the
`x-api-key` header (`none` = header absent); `today`/`now` are the clock
readings during that request. -/
inductive Req where
  | create (key : Option String) (today now : Int) (p : TaskIn)
  | get (key : Option String) (tid : Nat)
  | replace (key : Option String) (today now : Int) (tid : Nat) (p : TaskIn)
  | update (key : Option String) (today now : Int) (tid : Nat) (u : TaskUpdate)
  | del (key : Option String) (tid : Nat)
  | list (key : Option String)
deriving Repr, DecidableEq

/-- Dispatch one request. -/
def step (secret : String) (r : Req) (s : St) : St × Resp :=
  match r with
  | Req.create key today now p => create_task secret key today now p s
  | Req.get key tid => get_task secret key tid s
  | Req.replace key today now tid p => replace_task secret key today now tid p s
  | Req.update key today now tid u => update_task secret key today now tid u s
  | Req.del key tid => delete_task secret key tid s
  | Req.list key => list_tasks_simple secret key s

/-- Run a sequence of requests, keeping only the state. -/
def run (secret : String) (reqs : List Req) (s : St) : St :=
  reqs.foldl (fun s r => (step secret r s).1) s

/-- The `x-api-key` header value carried by a request. -/
def Req.key : Req → Option String
  | Req.create k _ _ _ => k
  | Req.get k _ => k
  | Req.replace k _ _ _ _ => k
  | Req.update k _ _ _ _ => k
  | Req.del k _ => k
  | Req.list k => k

/-- Error outcomes (anything that is not a 2xx success). -/
def Resp.isError : Resp → Bool
  | Resp.ok _ => false
  | Resp.created _ => false
  | Resp.okList _ => false
  | Resp.noContent => false
  | Resp.unauthorized => true
  | Resp.notFound => true
  | Resp.validationError => true
  | Resp.internalError => true

/-! Helper lemmas about validation predicates and store operations. -/

theorem titleOkFull_iff (t : String) :
    titleOkFull t = true ↔ 4 ≤ t.length ∧ t.length ≤ 100 := by
  simp [titleOkFull]

theorem taskInValid_iff (today : Int) (p : TaskIn) :
    TaskIn.valid today p = true ↔
      titleOkFull p.title = true ∧ descLe 100 p.description = true ∧
        dueOk today p.due_date = true := by
  simp [TaskIn.valid, Bool.and_eq_true, and_assoc]

theorem taskUpdateValid_iff (today : Int) (u : TaskUpdate) :
    TaskUpdate.valid today u = true ↔
      titleOkUpd u.title = true ∧ descUpdOk u.description = true ∧
        dueUpdOk today u.due_date = true := by
  simp [TaskUpdate.valid, Bool.and_eq_true, and_assoc]

/-- Keys currently present in the store. -/
def keys (db : DB) : List Nat := db.map Prod.fst

theorem dbGet_insert_self (db : DB) (k : Nat) (v : Task) :
    dbGet (dbInsert db k v) k = some v := by
  induction db with
  | nil => simp [dbInsert, dbGet]
  | cons p rest ih =>
      obtain ⟨k', v'⟩ := p
      by_cases h : k' = k
      · simp [dbInsert, h, dbGet]
      · simp [dbInsert, h, dbGet, ih]

theorem keys_cons (k' : Nat) (v' : Task) (rest : DB) :
    keys ((k', v') :: rest) = k' :: keys rest := rfl

theorem dbGet_insert_ne (db : DB) (k j : Nat) (v : Task) (h : j ≠ k) :
    dbGet (dbInsert db k v) j = dbGet db j := by
  induction db with
  | nil => simp [dbInsert, dbGet, Ne.symm h]
  | cons p rest ih =>
      obtain ⟨k', v'⟩ := p
      by_cases hk : k' = k
      · subst hk
        simp [dbInsert, dbGet, Ne.symm h]
      · simp [dbInsert, hk, dbGet, ih]

theorem mem_keys_iff_dbGet (db : DB) (k : Nat) :
    k ∈ keys db ↔ ∃ e, dbGet db k = some e := by
  induction db with
  | nil => simp [keys, dbGet]
  | cons p rest ih =>
      obtain ⟨k', v'⟩ := p
      by_cases h : k' = k
      · subst h
        simp [keys_cons, dbGet]
      · simp [keys_cons, List.mem_cons, dbGet, h, Ne.symm h, ih]

theorem keys_insert_mem (db : DB) (k : Nat) (v : Task) (h : k ∈ keys db) :
    keys (dbInsert db k v) = keys db := by
  induction db with
  | nil => simp [keys] at h
  | cons p rest ih =>
      obtain ⟨k', v'⟩ := p
      by_cases hk : k' = k
      · subst hk
        simp [dbInsert, keys_cons]
      · rw [keys_cons, List.mem_cons] at h
        rcases h with h | h
        · exact absurd h.symm hk
        · simp [dbInsert, hk, keys_cons, ih h]

theorem keys_insert_new (db : DB) (k : Nat) (v : Task) (h : k ∉ keys db) :
    keys (dbInsert db k v) = keys db ++ [k] := by
  induction db with
  | nil => simp [dbInsert, keys]
  | cons p rest ih =>
      obtain ⟨k', v'⟩ := p
      rw [keys_cons, List.mem_cons] at h
      push_neg at h
      have hk : k' ≠ k := fun hh => h.1 hh.symm
      simp [dbInsert, hk, keys_cons, ih h.2]

theorem dbErase_cons (k' : Nat) (v' : Task) (rest : DB) (k : Nat) :
    dbErase ((k', v') :: rest) k =
      if k' = k then dbErase rest k else (k', v') :: dbErase rest k := by
  by_cases h : k' = k <;> simp [dbErase, List.filter_cons, h]

theorem dbGet_erase_self (db : DB) (k : Nat) :
    dbGet (dbErase db k) k = none := by
  induction db with
  | nil => simp [dbErase, dbGet]
  | cons p rest ih =>
      obtain ⟨k', v'⟩ := p
      by_cases h : k' = k
      · simpa [dbErase_cons, h] using ih
      · simp [dbErase_cons, h, dbGet, ih]

theorem keys_erase (db : DB) (k : Nat) :
    keys (dbErase db k) = (keys db).filter (fun j => decide (j ≠ k)) := by
  induction db with
  | nil => simp [dbErase, keys]
  | cons p rest ih =>
      obtain ⟨k', v'⟩ := p
      by_cases h : k' = k <;>
        simp [dbErase_cons, h, keys_cons, List.filter_cons, ih]

/-! Evaluation lemmas: one per branch of each handler. -/

theorem step_key_none (secret : String) (r : Req) (s : St) (h : r.key = none) :
    step secret r s = (s, Resp.validationError) := by
  cases r <;> simp_all [Req.key] <;>
    simp [step, create_task, get_task, replace_task, update_task, delete_task,
      list_tasks_simple, withAuth]

theorem step_key_wrong (secret : String) (r : Req) (s : St) (v : String)
    (h : r.key = some v) (hv : v ≠ secret) :
    step secret r s = (s, Resp.unauthorized) := by
  cases r <;> simp_all [Req.key] <;>
    simp [step, create_task, get_task, replace_task, update_task, delete_task,
      list_tasks_simple, withAuth, hv]

theorem create_task_valid (secret : String) (today now : Int) (p : TaskIn)
    (s : St) (hval : TaskIn.valid today p = true) :
    create_task secret (some secret) today now p s
      = ({ counter := s.counter + 1,
           db := dbInsert s.db s.counter (freshTask p now s.counter) },
         Resp.created (freshTask p now s.counter)) := by
  simp [create_task, withAuth, hval]

theorem create_task_invalid (secret : String) (today now : Int) (p : TaskIn)
    (s : St) (hval : TaskIn.valid today p = false) :
    create_task secret (some secret) today now p s
      = (s, Resp.validationError) := by
  simp [create_task, withAuth, hval]

theorem get_task_found (secret : String) (tid : Nat) (s : St) (e : Task)
    (he : dbGet s.db tid = some e) :
    get_task secret (some secret) tid s = (s, Resp.ok e) := by
  simp [get_task, withAuth, he]

theorem get_task_missing (secret : String) (tid : Nat) (s : St)
    (he : dbGet s.db tid = none) :
    get_task secret (some secret) tid s = (s, Resp.notFound) := by
  simp [get_task, withAuth, he]

theorem replace_task_found (secret : String) (today now : Int) (tid : Nat)
    (p : TaskIn) (s : St) (old : Task) (hval : TaskIn.valid today p = true)
    (he : dbGet s.db tid = some old) :
    replace_task secret (some secret) today now tid p s
      = ({ counter := s.counter,
           db := dbInsert s.db tid (replacedTask p old.created_at now tid) },
         Resp.ok (replacedTask p old.created_at now tid)) := by
  simp [replace_task, withAuth, hval, he]

theorem replace_task_missing (secret : String) (today now : Int) (tid : Nat)
    (p : TaskIn) (s : St) (hval : TaskIn.valid today p = true)
    (he : dbGet s.db tid = none) :
    replace_task secret (some secret) today now tid p s
      = (s, Resp.notFound) := by
  simp [replace_task, withAuth, hval, he]

theorem replace_task_invalid (secret : String) (today now : Int) (tid : Nat)
    (p : TaskIn) (s : St) (hval : TaskIn.valid today p = false) :
    replace_task secret (some secret) today now tid p s
      = (s, Resp.validationError) := by
  simp [replace_task, withAuth, hval]

theorem update_task_ok (secret : String) (today now : Int) (tid : Nat)
    (u : TaskUpdate) (s : St) (e t : Task)
    (hval : TaskUpdate.valid today u = true) (he : dbGet s.db tid = some e)
    (hf : Task.fromRaw today (mergeUpdate e u now) = some t) :
    update_task secret (some secret) today now tid u s
      = ({ counter := s.counter, db := dbInsert s.db tid t }, Resp.ok t) := by
  simp [update_task, withAuth, hval, he, hf]

theorem update_task_raises (secret : String) (today now : Int) (tid : Nat)
    (u : TaskUpdate) (s : St) (e : Task)
    (hval : TaskUpdate.valid today u = true) (he : dbGet s.db tid = some e)
    (hf : Task.fromRaw today (mergeUpdate e u now) = none) :
    update_task secret (some secret) today now tid u s
      = (s, Resp.internalError) := by
  simp [update_task, withAuth, hval, he, hf]

theorem update_task_missing (secret : String) (today now : Int) (tid : Nat)
    (u : TaskUpdate) (s : St) (hval : TaskUpdate.valid today u = true)
    (he : dbGet s.db tid = none) :
    update_task secret (some secret) today now tid u s
      = (s, Resp.notFound) := by
  simp [update_task, withAuth, hval, he]

theorem update_task_invalid (secret : String) (today now : Int) (tid : Nat)
    (u : TaskUpdate) (s : St) (hval : TaskUpdate.valid today u = false) :
    update_task secret (some secret) today now tid u s
      = (s, Resp.validationError) := by
  simp [update_task, withAuth, hval]

theorem delete_task_found (secret : String) (tid : Nat) (s : St) (e : Task)
    (he : dbGet s.db tid = some e) :
    delete_task secret (some secret) tid s
      = ({ counter := s.counter, db := dbErase s.db tid }, Resp.noContent) := by
  simp [delete_task, withAuth, he]

theorem delete_task_missing (secret : String) (tid : Nat) (s : St)
    (he : dbGet s.db tid = none) :
    delete_task secret (some secret) tid s = (s, Resp.notFound) := by
  simp [delete_task, withAuth, he]

theorem list_tasks_simple_eq (secret : String) (s : St) :
    list_tasks_simple secret (some secret) s
      = (s, Resp.okList (s.db.map Prod.snd)) := by
  simp [list_tasks_simple, withAuth]

theorem step_create (secret : String) (key : Option String) (today now : Int)
    (p : TaskIn) (s : St) :
    step secret (Req.create key today now p) s
      = create_task secret key today now p s := rfl

theorem step_get (secret : String) (key : Option String) (tid : Nat) (s : St) :
    step secret (Req.get key tid) s = get_task secret key tid s := rfl

theorem step_replace (secret : String) (key : Option String) (today now : Int)
    (tid : Nat) (p : TaskIn) (s : St) :
    step secret (Req.replace key today now tid p) s
      = replace_task secret key today now tid p s := rfl

theorem step_update (secret : String) (key : Option String) (today now : Int)
    (tid : Nat) (u : TaskUpdate) (s : St) :
    step secret (Req.update key today now tid u) s
      = update_task secret key today now tid u s := rfl

theorem step_del (secret : String) (key : Option String) (tid : Nat) (s : St) :
    step secret (Req.del key tid) s = delete_task secret key tid s := rfl

theorem step_list (secret : String) (key : Option String) (s : St) :
    step secret (Req.list key) s = list_tasks_simple secret key s := rfl

/-- Every step leaves the state unchanged, inserts a fresh task at the
current counter value while bumping the counter, overwrites an existing key,
or erases a key; the counter never decreases. -/
theorem step_state_cases (secret : String) (r : Req) (s : St) :
    (step secret r s).1 = s
    ∨ (∃ p now, (step secret r s).1
         = { counter := s.counter + 1,
             db := dbInsert s.db s.counter (freshTask p now s.counter) })
    ∨ (∃ tid t, tid ∈ keys s.db ∧ (step secret r s).1
         = { counter := s.counter, db := dbInsert s.db tid t })
    ∨ (∃ tid, tid ∈ keys s.db ∧ (step secret r s).1
         = { counter := s.counter, db := dbErase s.db tid }) := by
  cases r with
  | create key today now p =>
      cases key with
      | none =>
          exact Or.inl
            (by rw [step_key_none secret (Req.create none today now p) s rfl])
      | some v =>
          by_cases hv : v = secret
          · subst hv
            by_cases hval : TaskIn.valid today p = true
            · refine Or.inr (Or.inl ⟨p, now, ?_⟩)
              rw [step_create, create_task_valid _ _ _ _ _ hval]
            · rw [Bool.not_eq_true] at hval
              exact Or.inl
                (by rw [step_create, create_task_invalid _ _ _ _ _ hval])
          · exact Or.inl
              (by rw [step_key_wrong secret (Req.create (some v) today now p) s v rfl hv])
  | get key tid =>
      cases key with
      | none =>
          exact Or.inl (by rw [step_key_none secret (Req.get none tid) s rfl])
      | some v =>
          by_cases hv : v = secret
          · subst hv
            rcases he : dbGet s.db tid with _ | e
            · exact Or.inl (by rw [step_get, get_task_missing _ _ _ he])
            · exact Or.inl (by rw [step_get, get_task_found _ _ _ _ he])
          · exact Or.inl
              (by rw [step_key_wrong secret (Req.get (some v) tid) s v rfl hv])
  | replace key today now tid p =>
      cases key with
      | none =>
          exact Or.inl
            (by rw [step_key_none secret (Req.replace none today now tid p) s rfl])
      | some v =>
          by_cases hv : v = secret
          · subst hv
            by_cases hval : TaskIn.valid today p = true
            · rcases he : dbGet s.db tid with _ | old
              · exact Or.inl
                  (by rw [step_replace, replace_task_missing _ _ _ _ _ _ hval he])
              · refine Or.inr (Or.inr (Or.inl
                  ⟨tid, replacedTask p old.created_at now tid, ?_, ?_⟩))
                · exact (mem_keys_iff_dbGet s.db tid).2 ⟨old, he⟩
                · rw [step_replace, replace_task_found _ _ _ _ _ _ _ hval he]
            · rw [Bool.not_eq_true] at hval
              exact Or.inl
                (by rw [step_replace, replace_task_invalid _ _ _ _ _ _ hval])
          · exact Or.inl
              (by rw [step_key_wrong secret (Req.replace (some v) today now tid p) s v rfl hv])
  | update key today now tid u =>
      cases key with
      | none =>
          exact Or.inl
            (by rw [step_key_none secret (Req.update none today now tid u) s rfl])
      | some v =>
          by_cases hv : v = secret
          · subst hv
            by_cases hval : TaskUpdate.valid today u = true
            · rcases he : dbGet s.db tid with _ | e
              · exact Or.inl
                  (by rw [step_update, update_task_missing _ _ _ _ _ _ hval he])
              · rcases hf : Task.fromRaw today (mergeUpdate e u now) with _ | t
                · exact Or.inl
                    (by rw [step_update, update_task_raises _ _ _ _ _ _ _ hval he hf])
                · refine Or.inr (Or.inr (Or.inl ⟨tid, t, ?_, ?_⟩))
                  · exact (mem_keys_iff_dbGet s.db tid).2 ⟨e, he⟩
                  · rw [step_update, update_task_ok _ _ _ _ _ _ _ _ hval he hf]
            · rw [Bool.not_eq_true] at hval
              exact Or.inl
                (by rw [step_update, update_task_invalid _ _ _ _ _ _ hval])
          · exact Or.inl
              (by rw [step_key_wrong secret (Req.update (some v) today now tid u) s v rfl hv])
  | del key tid =>
      cases key with
      | none =>
          exact Or.inl (by rw [step_key_none secret (Req.del none tid) s rfl])
      | some v =>
          by_cases hv : v = secret
          · subst hv
            rcases he : dbGet s.db tid with _ | e
            · exact Or.inl (by rw [step_del, delete_task_missing _ _ _ he])
            · refine Or.inr (Or.inr (Or.inr ⟨tid, ?_, ?_⟩))
              · exact (mem_keys_iff_dbGet s.db tid).2 ⟨e, he⟩
              · rw [step_del, delete_task_found _ _ _ _ he]
          · exact Or.inl
              (by rw [step_key_wrong secret (Req.del (some v) tid) s v rfl hv])
  | list key =>
      cases key with
      | none =>
          exact Or.inl (by rw [step_key_none secret (Req.list none) s rfl])
      | some v =>
          by_cases hv : v = secret
          · subst hv
            exact Or.inl (by rw [step_list, list_tasks_simple_eq])
          · exact Or.inl
              (by rw [step_key_wrong secret (Req.list (some v)) s v rfl hv])

/-- Store invariant: ids pairwise distinct and all below the id counter. -/
def StInv (s : St) : Prop :=
  (keys s.db).Nodup ∧ ∀ k ∈ keys s.db, k < s.counter

theorem StInv_initSt : StInv initSt := by
  constructor <;> simp [initSt, keys]

theorem StInv_mk (c : Nat) (db : DB) :
    StInv { counter := c, db := db } ↔
      (keys db).Nodup ∧ ∀ k ∈ keys db, k < c := Iff.rfl

theorem step_counter_le (secret : String) (r : Req) (s : St) :
    s.counter ≤ (step secret r s).1.counter := by
  rcases step_state_cases secret r s with h | ⟨p, now, h⟩ | ⟨tid, t, _, h⟩ | ⟨tid, _, h⟩ <;>
    rw [h] <;> (try dsimp only) <;> omega

theorem step_StInv (secret : String) (r : Req) (s : St) (h : StInv s) :
    StInv (step secret r s).1 := by
  obtain ⟨hnd, hlt⟩ := h
  rcases step_state_cases secret r s with hc | ⟨p, now, hc⟩ | ⟨tid, t, hm, hc⟩ |
      ⟨tid, hm, hc⟩ <;> rw [hc]
  · exact ⟨hnd, hlt⟩
  · rw [StInv_mk]
    have hfresh : s.counter ∉ keys s.db := fun hm => absurd (hlt _ hm) (lt_irrefl _)
    refine ⟨?_, ?_⟩
    · rw [keys_insert_new s.db s.counter _ hfresh]
      simp [List.nodup_append, hnd, hfresh]
    · intro k hk
      rw [keys_insert_new s.db s.counter _ hfresh] at hk
      rcases List.mem_append.1 hk with hk | hk
      · exact Nat.lt_succ_of_lt (hlt _ hk)
      · simp at hk
        omega
  · rw [StInv_mk]
    refine ⟨?_, ?_⟩
    · rw [keys_insert_mem s.db tid t hm]
      exact hnd
    · intro k hk
      rw [keys_insert_mem s.db tid t hm] at hk
      exact hlt _ hk
  · rw [StInv_mk]
    refine ⟨?_, ?_⟩
    · rw [keys_erase]
      exact hnd.filter _
    · intro k hk
      rw [keys_erase] at hk
      exact hlt _ (List.mem_of_mem_filter hk)

theorem run_nil (secret : String) (s : St) : run secret [] s = s := rfl

theorem run_cons (secret : String) (r : Req) (reqs : List Req) (s : St) :
    run secret (r :: reqs) s = run secret reqs (step secret r s).1 := rfl

theorem run_StInv (secret : String) (reqs : List Req) (s : St) (h : StInv s) :
    StInv (run secret reqs s) := by
  induction reqs generalizing s with
  | nil => exact h
  | cons r rest ih => exact ih _ (step_StInv secret r s h)

theorem run_counter_le (secret : String) (reqs : List Req) (s : St) :
    s.counter ≤ (run secret reqs s).counter := by
  induction reqs generalizing s with
  | nil => exact le_rfl
  | cons r rest ih =>
      exact le_trans (step_counter_le secret r s) (ih (step secret r s).1)

/-- A successful create always assigns the current counter value as the id. -/
theorem create_assigns_counter (secret : String) (key : Option String)
    (today now : Int) (p : TaskIn) (s s' : St) (t : Task)
    (h : step secret (Req.create key today now p) s = (s', Resp.created t)) :
    t.id = s.counter := by
  cases key with
  | none =>
      rw [step_key_none secret (Req.create none today now p) s rfl] at h
      simp [Prod.ext_iff] at h
  | some v =>
      by_cases hv : v = secret
      · subst hv
        by_cases hval : TaskIn.valid today p = true
        · rw [step_create, create_task_valid _ _ _ _ _ hval] at h
          have := (Prod.ext_iff.1 h).2
          have ht : t = freshTask p now s.counter := by
            cases this
            rfl
          rw [ht]
          rfl
        · rw [Bool.not_eq_true] at hval
          rw [step_create, create_task_invalid _ _ _ _ _ hval] at h
          simp [Prod.ext_iff] at h
      · rw [step_key_wrong secret (Req.create (some v) today now p) s v rfl hv] at h
        simp [Prod.ext_iff] at h

/-! Concrete payloads used by witnesses and counterexamples. -/

/-- A minimal valid create payload (title length 10, everything defaulted). -/
def samplePayload : TaskIn :=
  { title := "Write spec", description := none, priority := Priority.medium,
    status := Status.todo, due_date := none }

/-- A valid create payload whose due date is day 0. -/
def dueDayZeroPayload : TaskIn :=
  { title := "Task alpha", description := none, priority := Priority.medium,
    status := Status.todo, due_date := some 0 }

/-- A replacement payload distinct from `samplePayload` in every input field. -/
def replacementPayload : TaskIn :=
  { title := "Rewrite spec", description := some "second draft",
    priority := Priority.high, status := Status.doing, due_date := some 9 }

/-- A partial update that only supplies `status` (the payload
`{"status": ...}`). -/
def onlyStatus (st : Status) : TaskUpdate :=
  { title := none, description := none, priority := none,
    status := some (some st), due_date := none }

/-- A partial update that only supplies `description`. -/
def onlyDescription (d : String) : TaskUpdate :=
  { title := none, description := some (some d), priority := none,
    status := none, due_date := none }

/-- A partial update that only supplies `title`. -/
def onlyTitle (t : String) : TaskUpdate :=
  { title := some (some t), description := none, priority := none,
    status := none, due_date := none }

theorem Task.validAt_iff (today : Int) (t : Task) :
    Task.validAt today t = true ↔
      titleOkFull t.title = true ∧ descLe 100 t.description = true ∧
        dueOk today t.due_date = true := by
  simp [Task.validAt, Bool.and_eq_true, and_assoc]

/-- A description string of length 101: accepted by the partial-update
schema, rejected by the full schema. -/
def longDescription : String := String.mk (List.replicate 101 'a')

/-! Claim theorems. -/

/-- C1, counterexample to the claim as stated: a GET /tasks/{id} request with
the x-api-key header absent is answered with the 422 request-validation
error (the header is declared required via Header(...)), not with 401
Unauthorized; the store is unchanged. -/
theorem C1_counterexample :
    step "supersecret123" (Req.get none 1) initSt
        = (initSt, Resp.validationError)
      ∧ Resp.validationError ≠ Resp.unauthorized :=
  ⟨rfl, by decide⟩

/-- C1 (amended): for every request to a task endpoint, if the x-api-key
header is present but its value differs from the configured secret, the
request fails with Unauthorized (401) before payload validation and before
any store access and the store is unchanged; if the header is absent, the
request fails with a 422 validation error (missing required header), also
with the store unchanged. -/
theorem C1_auth_gate (secret : String) (r : Req) (s : St) :
    (r.key = none → step secret r s = (s, Resp.validationError))
    ∧ (∀ v, r.key = some v → v ≠ secret →
        step secret r s = (s, Resp.unauthorized)) :=
  ⟨fun h => step_key_none secret r s h,
   fun v h hv => step_key_wrong secret r s v h hv⟩

/-- Witness for C1: a wrong key on GET /tasks/{id} yields 401 and leaves the
initial store unchanged. -/
theorem C1_auth_gate_witness :
    step "supersecret123" (Req.get (some "wrong") 1) initSt
      = (initSt, Resp.unauthorized) :=
  (C1_auth_gate "supersecret123" (Req.get (some "wrong") 1) initSt).2
    "wrong" rfl (by decide)

/-- C3: with the other fields valid, a create request whose title is shorter
than 4 characters fails with a 422 validation error and stores nothing,
while a title of length 4 to 100 succeeds with 201 and stores the task. -/
theorem C3_create_title_bounds (secret : String) (today now : Int)
    (p : TaskIn) (s : St)
    (hd : descLe 100 p.description = true)
    (hdue : dueOk today p.due_date = true) :
    (p.title.length < 4 →
       step secret (Req.create (some secret) today now p) s
         = (s, Resp.validationError))
    ∧ (4 ≤ p.title.length → p.title.length ≤ 100 →
       step secret (Req.create (some secret) today now p) s
         = ({ counter := s.counter + 1,
              db := dbInsert s.db s.counter (freshTask p now s.counter) },
            Resp.created (freshTask p now s.counter))) := by
  constructor
  · intro hlt
    have ht : titleOkFull p.title = false := by
      unfold titleOkFull
      rw [decide_eq_false (by omega : ¬ (4 ≤ p.title.length))]
      simp
    have hval : TaskIn.valid today p = false := by
      simp [TaskIn.valid, ht]
    rw [step_create, create_task_invalid _ _ _ _ _ hval]
  · intro h4 h100
    have hval : TaskIn.valid today p = true := by
      rw [taskInValid_iff]
      refine ⟨?_, hd, hdue⟩
      simp [titleOkFull]
      omega
    rw [step_create, create_task_valid _ _ _ _ _ hval]

/-- Witness for C3: creating the sample payload (title length 10) in the
initial state succeeds and stores the task under id 1. -/
theorem C3_create_title_bounds_witness :
    step "supersecret123"
        (Req.create (some "supersecret123") 0 0 samplePayload) initSt
      = ({ counter := 2, db := [(1, freshTask samplePayload 0 1)] },
         Resp.created (freshTask samplePayload 0 1)) :=
  (C3_create_title_bounds "supersecret123" 0 0 samplePayload initSt
      (by decide) (by decide)).2 (by decide) (by decide)

/-- C4: on all three payload-carrying endpoints a supplied due_date strictly
before today fails with 422 and leaves the store unchanged; a due_date of
today or later passes the due-date validation (and the request is never
answered with 422 once the remaining fields are valid). -/
theorem C4_due_date_validation (secret : String) (today now : Int) (tid : Nat)
    (s : St) (v : Int) :
    (∀ p : TaskIn, p.due_date = some v → v < today →
       step secret (Req.create (some secret) today now p) s
           = (s, Resp.validationError)
       ∧ step secret (Req.replace (some secret) today now tid p) s
           = (s, Resp.validationError))
    ∧ (∀ u : TaskUpdate, u.due_date = some (some v) → v < today →
       step secret (Req.update (some secret) today now tid u) s
         = (s, Resp.validationError))
    ∧ (today ≤ v →
       dueOk today (some v) = true ∧ dueUpdOk today (some (some v)) = true)
    ∧ (∀ p : TaskIn, p.due_date = some v → today ≤ v →
       titleOkFull p.title = true → descLe 100 p.description = true →
       step secret (Req.create (some secret) today now p) s
           = ({ counter := s.counter + 1,
                db := dbInsert s.db s.counter (freshTask p now s.counter) },
              Resp.created (freshTask p now s.counter))
       ∧ (step secret (Req.replace (some secret) today now tid p) s).2
           ≠ Resp.validationError)
    ∧ (∀ u : TaskUpdate, u.due_date = some (some v) → today ≤ v →
       titleOkUpd u.title = true → descUpdOk u.description = true →
       (step secret (Req.update (some secret) today now tid u) s).2
         ≠ Resp.validationError) := by
  refine ⟨?_, ?_, ?_, ?_, ?_⟩
  · intro p hp hlt
    have hdueF : dueOk today p.due_date = false := by
      rw [hp]
      unfold dueOk
      exact decide_eq_false (by omega)
    have hval : TaskIn.valid today p = false := by
      simp [TaskIn.valid, hdueF]
    exact ⟨by rw [step_create, create_task_invalid _ _ _ _ _ hval],
           by rw [step_replace, replace_task_invalid _ _ _ _ _ _ hval]⟩
  · intro u hu hlt
    have hdueF : dueUpdOk today u.due_date = false := by
      rw [hu]
      unfold dueUpdOk
      exact decide_eq_false (by omega)
    have hval : TaskUpdate.valid today u = false := by
      simp [TaskUpdate.valid, hdueF]
    rw [step_update, update_task_invalid _ _ _ _ _ _ hval]
  · intro hge
    exact ⟨by unfold dueOk; exact decide_eq_true hge,
           by unfold dueUpdOk; exact decide_eq_true hge⟩
  · intro p hp hge ht hd
    have hval : TaskIn.valid today p = true := by
      rw [taskInValid_iff]
      exact ⟨ht, hd, by rw [hp]; unfold dueOk; exact decide_eq_true hge⟩
    refine ⟨by rw [step_create, create_task_valid _ _ _ _ _ hval], ?_⟩
    rcases he : dbGet s.db tid with _ | old
    · rw [step_replace, replace_task_missing _ _ _ _ _ _ hval he]
      simp
    · rw [step_replace, replace_task_found _ _ _ _ _ _ _ hval he]
      simp
  · intro u hu hge ht hd
    have hval : TaskUpdate.valid today u = true := by
      rw [taskUpdateValid_iff]
      exact ⟨ht, hd, by rw [hu]; unfold dueUpdOk; exact decide_eq_true hge⟩
    rcases he : dbGet s.db tid with _ | e
    · rw [step_update, update_task_missing _ _ _ _ _ _ hval he]
      simp
    · rcases hf : Task.fromRaw today (mergeUpdate e u now) with _ | t
      · rw [step_update, update_task_raises _ _ _ _ _ _ _ hval he hf]
        simp
      · rw [step_update, update_task_ok _ _ _ _ _ _ _ _ hval he hf]
        simp

/-- Witness for C4: creating a task with due date day 0 while today is
day 1 is rejected with 422 and the initial store is unchanged. -/
theorem C4_due_date_validation_witness :
    step "supersecret123"
        (Req.create (some "supersecret123") 1 5 dueDayZeroPayload) initSt
      = (initSt, Resp.validationError) :=
  ((C4_due_date_validation "supersecret123" 1 5 1 initSt 0).1
      dueDayZeroPayload rfl (by decide)).1

/-- C8: every handler either fully succeeds or fails without mutating state:
whenever the outcome of a request is an error (401, 404, 422, or an
exception escaping the handler), the state after the request equals the
state before it. -/
theorem C8_errors_leave_store_unchanged (secret : String) (r : Req) (s : St)
    (h : ((step secret r s).2).isError = true) : (step secret r s).1 = s := by
  cases r with
  | create key today now p =>
      cases key with
      | none => rw [step_key_none secret (Req.create none today now p) s rfl]
      | some v =>
          by_cases hv : v = secret
          · subst hv
            by_cases hval : TaskIn.valid today p = true
            · rw [step_create, create_task_valid _ _ _ _ _ hval] at h
              simp [Resp.isError] at h
            · rw [Bool.not_eq_true] at hval
              rw [step_create, create_task_invalid _ _ _ _ _ hval]
          · rw [step_key_wrong secret (Req.create (some v) today now p) s v
                rfl hv]
  | get key tid =>
      cases key with
      | none => rw [step_key_none secret (Req.get none tid) s rfl]
      | some v =>
          by_cases hv : v = secret
          · subst hv
            rcases he : dbGet s.db tid with _ | e
            · rw [step_get, get_task_missing _ _ _ he]
            · rw [step_get, get_task_found _ _ _ _ he] at h
              simp [Resp.isError] at h
          · rw [step_key_wrong secret (Req.get (some v) tid) s v rfl hv]
  | replace key today now tid p =>
      cases key with
      | none => rw [step_key_none secret (Req.replace none today now tid p) s rfl]
      | some v =>
          by_cases hv : v = secret
          · subst hv
            by_cases hval : TaskIn.valid today p = true
            · rcases he : dbGet s.db tid with _ | old
              · rw [step_replace, replace_task_missing _ _ _ _ _ _ hval he]
              · rw [step_replace, replace_task_found _ _ _ _ _ _ _ hval he] at h
                simp [Resp.isError] at h
            · rw [Bool.not_eq_true] at hval
              rw [step_replace, replace_task_invalid _ _ _ _ _ _ hval]
          · rw [step_key_wrong secret (Req.replace (some v) today now tid p) s
                v rfl hv]
  | update key today now tid u =>
      cases key with
      | none => rw [step_key_none secret (Req.update none today now tid u) s rfl]
      | some v =>
          by_cases hv : v = secret
          · subst hv
            by_cases hval : TaskUpdate.valid today u = true
            · rcases he : dbGet s.db tid with _ | e
              · rw [step_update, update_task_missing _ _ _ _ _ _ hval he]
              · rcases hf : Task.fromRaw today (mergeUpdate e u now) with _ | t
                · rw [step_update, update_task_raises _ _ _ _ _ _ _ hval he hf]
                · rw [step_update, update_task_ok _ _ _ _ _ _ _ _ hval he hf]
                    at h
                  simp [Resp.isError] at h
            · rw [Bool.not_eq_true] at hval
              rw [step_update, update_task_invalid _ _ _ _ _ _ hval]
          · rw [step_key_wrong secret (Req.update (some v) today now tid u) s
                v rfl hv]
  | del key tid =>
      cases key with
      | none => rw [step_key_none secret (Req.del none tid) s rfl]
      | some v =>
          by_cases hv : v = secret
          · subst hv
            rcases he : dbGet s.db tid with _ | e
            · rw [step_del, delete_task_missing _ _ _ he]
            · rw [step_del, delete_task_found _ _ _ _ he] at h
              simp [Resp.isError] at h
          · rw [step_key_wrong secret (Req.del (some v) tid) s v rfl hv]
  | list key =>
      cases key with
      | none => rw [step_key_none secret (Req.list none) s rfl]
      | some v =>
          by_cases hv : v = secret
          · subst hv
            rw [step_list, list_tasks_simple_eq] at h
            simp [Resp.isError] at h
          · rw [step_key_wrong secret (Req.list (some v)) s v rfl hv]

/-- Witness for C8: deleting a task that does not exist returns 404 and the
initial store is unchanged. -/
theorem C8_errors_leave_store_unchanged_witness :
    (step "supersecret123" (Req.del (some "supersecret123") 7) initSt).1
      = initSt :=
  C8_errors_leave_store_unchanged "supersecret123"
    (Req.del (some "supersecret123") 7) initSt (by decide)

/-- C2, counterexample to the claim as stated: a partial-update payload
whose description has length 101 (at most 500, so it passes the
TaskUpdate schema) does not make the update succeed: the PATCH is answered
with the internal error raised by Task(**data), and the store is
unchanged. -/
theorem C2_counterexample :
    TaskUpdate.valid 0 (onlyDescription longDescription) = true
    ∧ step "supersecret123"
          (Req.update (some "supersecret123") 0 1 1
            (onlyDescription longDescription))
          { counter := 2, db := [(1, freshTask samplePayload 0 1)] }
        = ({ counter := 2, db := [(1, freshTask samplePayload 0 1)] },
           Resp.internalError)
    ∧ Resp.internalError.isError = true := by
  refine ⟨by decide, by decide, rfl⟩

/-- C2 (amended): the description bound is 100 on the create/replace schema
and 500 on the partial-update schema, but the PATCH handler re-validates the
merged record against the full schema: a supplied description of length at
most 100 updates successfully, lengths 101..500 pass payload validation and
then fail during Task construction (internal error, store unchanged), and
lengths above 500 fail payload validation with 422. -/
theorem C2_description_bounds (secret : String) (today now : Int) (tid : Nat)
    (s : St) (e : Task) (d : String) :
    (∀ p : TaskIn, p.description = some d → titleOkFull p.title = true →
       dueOk today p.due_date = true →
       (TaskIn.valid today p = true ↔ d.length ≤ 100))
    ∧ (TaskUpdate.valid today (onlyDescription d) = true ↔ d.length ≤ 500)
    ∧ (dbGet s.db tid = some e → Task.validAt today e = true →
       (d.length ≤ 100 →
          step secret
              (Req.update (some secret) today now tid (onlyDescription d)) s
            = ({ counter := s.counter,
                 db := dbInsert s.db tid
                   { e with description := some d, updated_at := now } },
               Resp.ok { e with description := some d, updated_at := now }))
       ∧ (100 < d.length → d.length ≤ 500 →
          step secret
              (Req.update (some secret) today now tid (onlyDescription d)) s
            = (s, Resp.internalError))
       ∧ (500 < d.length →
          step secret
              (Req.update (some secret) today now tid (onlyDescription d)) s
            = (s, Resp.validationError))) := by
  refine ⟨?_, ?_, ?_⟩
  · intro p hp ht hdue
    rw [taskInValid_iff]
    simp [ht, hdue, hp, descLe]
  · simp [TaskUpdate.valid, onlyDescription, titleOkUpd, descUpdOk, dueUpdOk]
  · intro he hv
    obtain ⟨ht, hd, hdue⟩ := (Task.validAt_iff today e).1 hv
    refine ⟨?_, ?_, ?_⟩
    · intro h100
      have hval : TaskUpdate.valid today (onlyDescription d) = true := by
        simp [TaskUpdate.valid, onlyDescription, titleOkUpd, descUpdOk,
          dueUpdOk]
        omega
      have hf : Task.fromRaw today (mergeUpdate e (onlyDescription d) now)
          = some { e with description := some d, updated_at := now } := by
        simp [Task.fromRaw, mergeUpdate, onlyDescription, ht, hdue, descLe,
          h100]
      rw [step_update, update_task_ok _ _ _ _ _ _ _ _ hval he hf]
    · intro h100 h500
      have hval : TaskUpdate.valid today (onlyDescription d) = true := by
        simp [TaskUpdate.valid, onlyDescription, titleOkUpd, descUpdOk,
          dueUpdOk]
        omega
      have hf : Task.fromRaw today (mergeUpdate e (onlyDescription d) now)
          = none := by
        simp [Task.fromRaw, mergeUpdate, onlyDescription, descLe]
        omega
      rw [step_update, update_task_raises _ _ _ _ _ _ _ hval he hf]
    · intro h500
      have hval : TaskUpdate.valid today (onlyDescription d) = false := by
        simp [TaskUpdate.valid, onlyDescription, titleOkUpd, descUpdOk,
          dueUpdOk]
        omega
      rw [step_update, update_task_invalid _ _ _ _ _ _ hval]

/-- Witness for C2: updating the stored sample task with a 60-character
description succeeds and stores the new description. -/
theorem C2_description_bounds_witness :
    step "supersecret123"
        (Req.update (some "supersecret123") 0 1 1
          (onlyDescription (String.mk (List.replicate 60 'b'))))
        { counter := 2, db := [(1, freshTask samplePayload 0 1)] }
      = ({ counter := 2,
           db := [(1, { freshTask samplePayload 0 1 with
                        description := some (String.mk (List.replicate 60 'b')),
                        updated_at := 1 })] },
         Resp.ok { freshTask samplePayload 0 1 with
                   description := some (String.mk (List.replicate 60 'b')),
                   updated_at := 1 }) := by
  have h := (C2_description_bounds "supersecret123" 0 1 1
      { counter := 2, db := [(1, freshTask samplePayload 0 1)] }
      (freshTask samplePayload 0 1)
      (String.mk (List.replicate 60 'b'))).2.2 (by decide) (by decide)
  exact (h.1 (by decide)).trans (by decide)

/-- C5: creating a task and then replacing it by PUT on its id preserves
created_at, takes every other input field from the replacement payload, and
strictly increases updated_at (given that the wall clock advanced between
the two requests). -/
theorem C5_replace_preserves_created_at (secret : String)
    (today1 now1 today2 now2 : Int) (p1 p2 : TaskIn) (s : St)
    (h1 : TaskIn.valid today1 p1 = true) (h2 : TaskIn.valid today2 p2 = true)
    (hclock : now1 < now2) :
    step secret (Req.create (some secret) today1 now1 p1) s
        = ({ counter := s.counter + 1,
             db := dbInsert s.db s.counter (freshTask p1 now1 s.counter) },
           Resp.created (freshTask p1 now1 s.counter))
    ∧ step secret (Req.replace (some secret) today2 now2 s.counter p2)
          { counter := s.counter + 1,
            db := dbInsert s.db s.counter (freshTask p1 now1 s.counter) }
        = ({ counter := s.counter + 1,
             db := dbInsert (dbInsert s.db s.counter (freshTask p1 now1 s.counter))
               s.counter (replacedTask p2 now1 now2 s.counter) },
           Resp.ok (replacedTask p2 now1 now2 s.counter))
    ∧ (replacedTask p2 now1 now2 s.counter).created_at
        = (freshTask p1 now1 s.counter).created_at
    ∧ (freshTask p1 now1 s.counter).updated_at
        < (replacedTask p2 now1 now2 s.counter).updated_at
    ∧ (replacedTask p2 now1 now2 s.counter).title = p2.title
    ∧ (replacedTask p2 now1 now2 s.counter).description = p2.description
    ∧ (replacedTask p2 now1 now2 s.counter).priority = p2.priority
    ∧ (replacedTask p2 now1 now2 s.counter).status = p2.status
    ∧ (replacedTask p2 now1 now2 s.counter).due_date = p2.due_date
    ∧ (replacedTask p2 now1 now2 s.counter).id
        = (freshTask p1 now1 s.counter).id := by
  refine ⟨?_, ?_, rfl, hclock, rfl, rfl, rfl, rfl, rfl, rfl⟩
  · rw [step_create, create_task_valid _ _ _ _ _ h1]
  · have he : dbGet (dbInsert s.db s.counter (freshTask p1 now1 s.counter))
        s.counter = some (freshTask p1 now1 s.counter) :=
      dbGet_insert_self _ _ _
    rw [step_replace, replace_task_found _ _ _ _ _ _ _ h2 he]
    rfl

/-- Witness for C5: sample create at time 0 then replacement at time 1. -/
theorem C5_replace_preserves_created_at_witness :
    step "supersecret123"
        (Req.replace (some "supersecret123") 0 1 1 replacementPayload)
        { counter := 2, db := [(1, freshTask samplePayload 0 1)] }
      = ({ counter := 2, db := [(1, replacedTask replacementPayload 0 1 1)] },
         Resp.ok (replacedTask replacementPayload 0 1 1)) := by
  have h := C5_replace_preserves_created_at "supersecret123" 0 0 0 1
      samplePayload replacementPayload initSt (by decide) (by decide)
      (by decide)
  exact h.2.1.trans (by decide)

/-- C6, counterexample to the claim as stated: a task stored with due date
day 0 is present in the store, yet at day 1 a PATCH supplying only
{"status":"done"} does not succeed: the inherited due_not_past validator
re-runs during Task construction and the request ends in the internal
error, store unchanged. -/
theorem C6_counterexample :
    dbGet [(1, freshTask dueDayZeroPayload 0 1)] 1
        = some (freshTask dueDayZeroPayload 0 1)
    ∧ step "supersecret123"
          (Req.update (some "supersecret123") 1 5 1 (onlyStatus Status.done))
          { counter := 2, db := [(1, freshTask dueDayZeroPayload 0 1)] }
        = ({ counter := 2, db := [(1, freshTask dueDayZeroPayload 0 1)] },
           Resp.internalError) := by
  exact ⟨by decide, by decide⟩

/-- C6 (amended): for every stored task that still satisfies the full-input
constraints at patch time (in particular its due date is absent or not yet
past), a PATCH supplying only status succeeds and leaves id, title,
description, priority, due_date and created_at identical, changing only
status and updated_at. -/
theorem C6_patch_status_frame (secret : String) (today now : Int) (tid : Nat)
    (st : Status) (s : St) (e : Task)
    (he : dbGet s.db tid = some e) (hv : Task.validAt today e = true) :
    step secret (Req.update (some secret) today now tid (onlyStatus st)) s
      = ({ counter := s.counter,
           db := dbInsert s.db tid { e with status := st, updated_at := now } },
         Resp.ok { e with status := st, updated_at := now }) := by
  obtain ⟨ht, hd, hdue⟩ := (Task.validAt_iff today e).1 hv
  have hval : TaskUpdate.valid today (onlyStatus st) = true := rfl
  have hf : Task.fromRaw today (mergeUpdate e (onlyStatus st) now)
      = some { e with status := st, updated_at := now } := by
    simp [Task.fromRaw, mergeUpdate, onlyStatus, ht, hd, hdue]
  rw [step_update, update_task_ok _ _ _ _ _ _ _ _ hval he hf]

/-- Witness for C6: marking the stored sample task done at time 3. -/
theorem C6_patch_status_frame_witness :
    step "supersecret123"
        (Req.update (some "supersecret123") 0 3 1 (onlyStatus Status.done))
        { counter := 2, db := [(1, freshTask samplePayload 0 1)] }
      = ({ counter := 2,
           db := [(1, { freshTask samplePayload 0 1 with
                        status := Status.done, updated_at := 3 })] },
         Resp.ok { freshTask samplePayload 0 1 with
                   status := Status.done, updated_at := 3 }) := by
  have h := C6_patch_status_frame "supersecret123" 0 3 1 Status.done
      { counter := 2, db := [(1, freshTask samplePayload 0 1)] }
      (freshTask samplePayload 0 1) (by decide) (by decide)
  exact h.trans (by decide)

/-- C9: a PATCH whose payload passes the partial-update schema but whose
merged record violates the full-input constraints inherited by Task (title
shorter than 4, or description longer than 100) ends in the internal error
raised during Task construction — neither a 422 nor a success — and the
store is unchanged. -/
theorem C9_patch_merged_violation (secret : String) (today now : Int)
    (tid : Nat) (u : TaskUpdate) (s : St) (e : Task)
    (he : dbGet s.db tid = some e) (hu : TaskUpdate.valid today u = true) :
    (Task.fromRaw today (mergeUpdate e u now) = none →
       step secret (Req.update (some secret) today now tid u) s
         = (s, Resp.internalError))
    ∧ (∀ t, (mergeUpdate e u now).title = some t → t.length < 4 →
        Task.fromRaw today (mergeUpdate e u now) = none)
    ∧ (∀ d, (mergeUpdate e u now).description = some d → 100 < d.length →
        Task.fromRaw today (mergeUpdate e u now) = none) := by
  refine ⟨?_, ?_, ?_⟩
  · intro hf
    rw [step_update, update_task_raises _ _ _ _ _ _ _ hu he hf]
  · intro t hteq hlt
    have ht : titleOkFull t = false := by
      unfold titleOkFull
      rw [decide_eq_false (by omega : ¬ (4 ≤ t.length))]
      simp
    unfold Task.fromRaw
    rcases hp : (mergeUpdate e u now).priority with _ | pr <;>
      rcases hs2 : (mergeUpdate e u now).status with _ | st2 <;>
        simp [hteq, hp, hs2, ht]
  · intro d hdeq hlen
    have hd : descLe 100 (some d) = false := by
      unfold descLe
      exact decide_eq_false (by omega)
    unfold Task.fromRaw
    rcases ht2 : (mergeUpdate e u now).title with _ | t2 <;>
      rcases hp : (mergeUpdate e u now).priority with _ | pr <;>
        rcases hs2 : (mergeUpdate e u now).status with _ | st2 <;>
          simp [ht2, hp, hs2, hdeq, hd]

/-- Witness for C9: patching the stored sample task with title "abc"
(length 3, accepted by the partial schema) raises during Task construction
and leaves the store unchanged. -/
theorem C9_patch_merged_violation_witness :
    step "supersecret123"
        (Req.update (some "supersecret123") 0 1 1 (onlyTitle "abc"))
        { counter := 2, db := [(1, freshTask samplePayload 0 1)] }
      = ({ counter := 2, db := [(1, freshTask samplePayload 0 1)] },
         Resp.internalError) := by
  have h := C9_patch_merged_violation "supersecret123" 0 1 1 (onlyTitle "abc")
      { counter := 2, db := [(1, freshTask samplePayload 0 1)] }
      (freshTask samplePayload 0 1) (by decide) (by decide)
  exact h.1 (h.2.1 "abc" rfl (by decide))

/-- C10: if a stored task's due date is already past at patch time, any
PATCH on it that does not supply a new due_date fails with the internal
error from the re-run due_not_past validator during Task construction
(instead of succeeding with 200), and the store is unchanged. -/
theorem C10_stale_due_date_patch (secret : String) (today now : Int)
    (tid : Nat) (u : TaskUpdate) (s : St) (e : Task) (v : Int)
    (he : dbGet s.db tid = some e) (hdue : e.due_date = some v)
    (hpast : v < today) (hunset : u.due_date = none)
    (hu : TaskUpdate.valid today u = true) :
    step secret (Req.update (some secret) today now tid u) s
      = (s, Resp.internalError) := by
  have hmergedue : (mergeUpdate e u now).due_date = some v := by
    simp [mergeUpdate, hunset, hdue]
  have hdueF : dueOk today (some v) = false := by
    unfold dueOk
    exact decide_eq_false (by omega)
  have hf : Task.fromRaw today (mergeUpdate e u now) = none := by
    unfold Task.fromRaw
    rcases ht : (mergeUpdate e u now).title with _ | t <;>
      rcases hp : (mergeUpdate e u now).priority with _ | pr <;>
        rcases hs2 : (mergeUpdate e u now).status with _ | st2 <;>
          simp [ht, hp, hs2, hmergedue, hdueF]
  rw [step_update, update_task_raises _ _ _ _ _ _ _ hu he hf]

/-- Witness for C10: the task stored with due date day 0, patched at day 1
with only a status change, ends in the internal error with the store
unchanged. -/
theorem C10_stale_due_date_patch_witness :
    step "supersecret123"
        (Req.update (some "supersecret123") 1 9 1 (onlyStatus Status.doing))
        { counter := 2, db := [(1, freshTask dueDayZeroPayload 0 1)] }
      = ({ counter := 2, db := [(1, freshTask dueDayZeroPayload 0 1)] },
         Resp.internalError) :=
  C10_stale_due_date_patch "supersecret123" 1 9 1 (onlyStatus Status.doing)
    { counter := 2, db := [(1, freshTask dueDayZeroPayload 0 1)] }
    (freshTask dueDayZeroPayload 0 1) 0 (by decide) rfl (by decide) rfl
    (by decide)

/-- C7: in every reachable state the stored ids are pairwise distinct and
below the process-wide counter, which never decreases across any request; a
successful DELETE of an id is immediately followed by 404 on GET of that
id; and after the deletion no later successful POST — after any further
request sequence — ever assigns that id again. -/
theorem C7_unique_ids_never_reused (secret : String) (reqs : List Req)
    (tid : Nat) (e : Task) :
    StInv (run secret reqs initSt)
    ∧ (∀ r : Req, (run secret reqs initSt).counter
         ≤ (step secret r (run secret reqs initSt)).1.counter)
    ∧ (dbGet (run secret reqs initSt).db tid = some e →
        step secret (Req.del (some secret) tid) (run secret reqs initSt)
          = ({ counter := (run secret reqs initSt).counter,
               db := dbErase (run secret reqs initSt).db tid },
             Resp.noContent)
        ∧ step secret (Req.get (some secret) tid)
              { counter := (run secret reqs initSt).counter,
                db := dbErase (run secret reqs initSt).db tid }
            = ({ counter := (run secret reqs initSt).counter,
                 db := dbErase (run secret reqs initSt).db tid },
               Resp.notFound)
        ∧ ∀ (reqs' : List Req) (key : Option String) (today now : Int)
            (p : TaskIn) (s' : St) (t : Task),
            step secret (Req.create key today now p)
                (run secret reqs'
                  { counter := (run secret reqs initSt).counter,
                    db := dbErase (run secret reqs initSt).db tid })
              = (s', Resp.created t) →
            t.id ≠ tid) := by
  have hinv : StInv (run secret reqs initSt) :=
    run_StInv secret reqs initSt StInv_initSt
  obtain ⟨hnd, hlt⟩ := hinv
  refine ⟨⟨hnd, hlt⟩, fun r => step_counter_le secret r _,
    fun he => ⟨?_, ?_, ?_⟩⟩
  · rw [step_del, delete_task_found _ _ _ _ he]
  · rw [step_get, get_task_missing secret tid _
      (dbGet_erase_self (run secret reqs initSt).db tid)]
  · intro reqs' key today now p s' t hstep
    have hid := create_assigns_counter secret key today now p _ s' t hstep
    have htid : tid < (run secret reqs initSt).counter :=
      hlt tid ((mem_keys_iff_dbGet _ tid).2 ⟨e, he⟩)
    have hmono := run_counter_le secret reqs'
      { counter := (run secret reqs initSt).counter,
        db := dbErase (run secret reqs initSt).db tid }
    rw [hid]
    dsimp only at hmono
    omega

/-- Witness for C7: after creating one task and deleting id 1, the delete
responded 204 and emptied the store. -/
theorem C7_unique_ids_never_reused_witness :
    step "supersecret123" (Req.del (some "supersecret123") 1)
        (run "supersecret123"
          [Req.create (some "supersecret123") 0 0 samplePayload] initSt)
      = ({ counter := 2, db := [] }, Resp.noContent) := by
  have h := C7_unique_ids_never_reused "supersecret123"
      [Req.create (some "supersecret123") 0 0 samplePayload] 1
      (freshTask samplePayload 0 1)
  exact (h.2.2 (by decide)).1.trans (by decide)

end TasksApi
